import Mathlib

/-!
Verification development for the struggle-detection pipeline of a
mentorship-platform backend.

The pipeline has three stages, embedded here as pure functions with explicit
store passing:

* Signal Extractor (`extractSignalsFromInteraction`): inspects one tutoring
  interaction plus the rolling window of the user's recent interactions and
  persists zero or more normalized struggle signals, idempotently via a
  unique (interactionId, signalType) key.
* Score Aggregator (`recomputeForUser`): aggregates a user's signals in a
  time window into a composite 1..10 score, trend and support level, and
  upserts the user's struggle profile.
* Alert Dispatcher (`createAlertsIfNeeded`): creates at most one alert per
  (tutor, student) pair per 24-hour cooldown window, for tutors in the
  student's care network.

JS numbers are modelled as ℚ, timestamps as milliseconds since the epoch
(Nat), and database collections as lists of records.  `create` against a
unique index is modelled as an append guarded by a key lookup, with the
duplicate-key error path counted as a skip exactly as the source does.
-/

namespace StrugglePipeline

/-- Characters of `pat` occur at the start of `txt` (case-sensitive). -/
def charsLeadWith : List Char → List Char → Bool
  | [], _ => true
  | _ :: _, [] => false
  | a :: pat', b :: txt' => a == b && charsLeadWith pat' txt'

/-- `pat` occurs contiguously somewhere inside `txt`. -/
def charsHaveSub (pat : List Char) : List Char → Bool
  | [] => charsLeadWith pat []
  | c :: txt' => charsLeadWith pat (c :: txt') || charsHaveSub pat (txt')

/-- JS `txt.includes(pat)` on strings. -/
def strIncludes (txt pat : String) : Bool := charsHaveSub pat.data txt.data

/-- ASCII lower-casing of one character, as `Char.toLower` behaves on the
ASCII range (all lexicon phrases are ASCII). -/
def charLower (c : Char) : Char :=
  if c.toNat ≥ 65 ∧ c.toNat ≤ 90 then Char.ofNat (c.toNat + 32) else c

/-- JS `String.prototype.toLowerCase` restricted to ASCII. -/
def strLower (s : String) : String := String.mk (s.data.map charLower)

/-- `_clamp01`: clamp a number into [0,1].  (The NaN/undefined guard of the
source maps every non-number to 0; ℚ inputs are always numbers.) -/
def clamp01 (n : ℚ) : ℚ := max 0 (min 1 n)

/-- `_normalizeLinear(x, min, max)` from the Signal Extractor. -/
def normalizeLinear (x mn mx : ℚ) : ℚ :=
  if mx ≤ mn then 0
  else if x ≤ mn then 0
  else if mx ≤ x then 1
  else (x - mn) / (mx - mn)

/-- Negative-phrase lexicon of `_sentimentLexiconScore`. -/
def negativeWords : List String :=
  ["stuck", "confused", "frustrated", "annoying", "hate", "cant", "can\x27t",
   "won\x27t", "doesnt make sense", "doesn\x27t make sense", "im lost", "i\x27m lost",
   "give up", "hard", "im done", "i\x27m done", "this sucks"]

/-- Positive-phrase lexicon of `_sentimentLexiconScore`. -/
def positiveWords : List String :=
  ["got it", "thanks", "thank you", "understand", "makes sense", "nice",
   "awesome", "great", "cool", "worked", "solved", "lets go", "let\x27s go"]

/-- `_sentimentLexiconScore`: lexicon hit count clamped to [-3,3], divided
by 3, yielding a value in [-1,1]. -/
def sentimentLexiconScore (text : String) : ℚ :=
  let t := strLower text
  let negTotal : Int := negativeWords.foldl (fun s w => if strIncludes t w then s - 1 else s) 0
  let scoreInt : Int := positiveWords.foldl (fun s w => if strIncludes t w then s + 1 else s) negTotal
  if scoreInt ≤ -3 then -1
  else if 3 ≤ scoreInt then 1
  else (scoreInt : ℚ) / 3

/-- One AIInteraction document, restricted to the fields the extractor
reads.  Optional fields model absent / null JS values. -/
structure AIInteraction where
  id : Nat
  userId : Nat
  role : Option String
  track : Option String
  topicOneLine : Option String
  inputText : Option String
  status : Option String
  processingTime : Option ℚ
  createdAt : Nat
  deriving DecidableEq

/-- JS `v || dflt` for an optional string (empty string is falsy). -/
def orDefault (v : Option String) (dflt : String) : String :=
  match v with
  | none => dflt
  | some s => if s = "" then dflt else s

/-- `interaction?.analytics?.topicOneLine || "unknown"`. -/
def getTopic (x : AIInteraction) : String := orDefault x.topicOneLine "unknown"

/-- `interaction.inputText || ""`. -/
def getText (x : AIInteraction) : String := orDefault x.inputText ""

/-- One StruggleSignal payload as built by `_signal`, restricted to the
fields the pipeline reads (the free-form `meta.raw` blob is dropped). -/
structure SignalPayload where
  userId : Nat
  interactionId : Nat
  track : String
  topic : String
  signalType : String
  value : ℚ
  windowHours : Nat
  deriving DecidableEq

/-- `_signal`: build a payload, clamping the value into [0,1]. -/
def mkSignal (i : AIInteraction) (track topic signalType : String) (value : ℚ)
    (windowHours : Nat) : SignalPayload :=
  { userId := i.userId, interactionId := i.id,
    track := if track = "" then "general" else track,
    topic := if topic = "" then "unknown" else topic,
    signalType := signalType, value := clamp01 value, windowHours := windowHours }

/-- Rule 1, FAILED_ATTEMPT: fires with magnitude 1 when status is FAILED. -/
def failedAttemptSignal (i : AIInteraction) (track topic : String) (wh : Nat) :
    Option SignalPayload :=
  if i.status = some "FAILED" then some (mkSignal i track topic "FAILED_ATTEMPT" 1 wh)
  else none

/-- Occurrences of `topic` among the window interactions. -/
def sameTopicCount (recent : List AIInteraction) (topic : String) : Nat :=
  (recent.filter (fun x => getTopic x = topic)).length

/-- Rule 2, REPEATED_TOPIC: fires when the topic occurs at least 3 times. -/
def repeatedTopicSignal (i : AIInteraction) (recent : List AIInteraction)
    (track topic : String) (wh : Nat) : Option SignalPayload :=
  let c := sameTopicCount recent topic
  if 3 ≤ c then some (mkSignal i track topic "REPEATED_TOPIC" (normalizeLinear (c : ℚ) 1 5) wh)
  else none

/-- Insertion step for ascending sort of the latency sample. -/
def insertSorted (x : ℚ) : List ℚ → List ℚ
  | [] => [x]
  | y :: ys => if x ≤ y then x :: y :: ys else y :: insertSorted x ys

/-- Ascending sort, modelling `Array.prototype.sort((a,b) => a-b)`. -/
def sortAsc (l : List ℚ) : List ℚ := l.foldr insertSorted []

/-- Rule 3, LONG_RESPONSE_TIME: current latency against the median of up to
the 30 most recent window latencies (default baseline 4000ms). -/
def longResponseSignal (i : AIInteraction) (recent : List AIInteraction)
    (track topic : String) (wh : Nat) : Option SignalPayload :=
  match i.processingTime with
  | none => none
  | some latencyMs =>
    let lats := sortAsc ((recent.filterMap (fun x => x.processingTime)).take 30)
    let baseline := if lats.length = 0 then (4000 : ℚ) else lats.getD (lats.length / 2) 0
    let overBase := if 0 < baseline then latencyMs / baseline else 1
    if (1.5 : ℚ) ≤ overBase then
      some (mkSignal i track topic "LONG_RESPONSE_TIME" (normalizeLinear overBase 1.1 2.5) wh)
    else none

/-- Rule 4, NEGATIVE_SENTIMENT: lexicon score transformed into [0,1]; fires
from 0.45 upwards. -/
def negativeSentimentSignal (i : AIInteraction) (track topic : String) (wh : Nat) :
    Option SignalPayload :=
  let sc := sentimentLexiconScore (getText i)
  let v := clamp01 ((-sc + 0.1) / 1.1)
  if (0.45 : ℚ) ≤ v then some (mkSignal i track topic "NEGATIVE_SENTIMENT" v wh)
  else none

/-- Hint-seeking phrase list of rule 5. -/
def hintMarkers : List String :=
  ["hint", "clue", "nudge", "dont give answer", "no answer", "just help", "guide me"]

/-- Whether a text matches any hint marker (lower-cased, substring). -/
def isHintText (text : String) : Bool :=
  hintMarkers.any (fun m => strIncludes (strLower text) m)

/-- Rule 5, HINT_DEPENDENCY: fires whenever the current text matches;
magnitude from the count of matching window interactions. -/
def hintDependencySignal (i : AIInteraction) (recent : List AIInteraction)
    (track topic : String) (wh : Nat) : Option SignalPayload :=
  if isHintText (getText i) then
    let hintCount := (recent.filter (fun x => isHintText (getText x))).length
    some (mkSignal i track topic "HINT_DEPENDENCY" (normalizeLinear (hintCount : ℚ) 1 8) wh)
  else none

/-- `_computeEngagementDrop`: last 6h versus preceding 6h activity; needs
at least 10 window interactions and at least 3 in the preceding window. -/
def computeEngagementDrop (recent : List AIInteraction) (now : Nat) : Option ℚ :=
  if recent.length < 10 then none
  else
    let h6 : Nat := 6 * 60 * 60 * 1000
    let last6h := (recent.filter (fun x => decide (now - x.createdAt ≤ h6))).length
    let prev6h := (recent.filter (fun x =>
      decide (h6 < now - x.createdAt ∧ now - x.createdAt ≤ 2 * h6))).length
    if prev6h < 3 then none
    else some (normalizeLinear (1 - (last6h : ℚ) / (prev6h : ℚ)) 0.1 0.8)

/-- Rule 6, ENGAGEMENT_DROP: fires when the computed drop is at least 0.6. -/
def engagementDropSignal (i : AIInteraction) (recent : List AIInteraction) (now : Nat)
    (track topic : String) (wh : Nat) : Option SignalPayload :=
  match computeEngagementDrop recent now with
  | none => none
  | some v =>
    if (0.6 : ℚ) ≤ v then some (mkSignal i track topic "ENGAGEMENT_DROP" v wh)
    else none

/-- The ordered list of signal payloads one extraction pass computes, i.e.
the `signalPayloads` array after the six detection rules have run. -/
def computePayloads (i : AIInteraction) (recent : List AIInteraction) (now : Nat)
    (wh : Nat) : List SignalPayload :=
  let track := orDefault i.track "general"
  let topic := getTopic i
  (failedAttemptSignal i track topic wh).toList ++
  (repeatedTopicSignal i recent track topic wh).toList ++
  (longResponseSignal i recent track topic wh).toList ++
  (negativeSentimentSignal i track topic wh).toList ++
  (hintDependencySignal i recent track topic wh).toList ++
  (engagementDropSignal i recent now track topic wh).toList

/-- One persisted StruggleSignal document (`timestamps: true` stamps
`createdAt`). -/
structure StoredSignal where
  userId : Nat
  interactionId : Nat
  track : String
  topic : String
  signalType : String
  value : ℚ
  windowHours : Nat
  createdAt : Nat
  deriving DecidableEq

/-- Persist a payload at time `now`. -/
def mkStored (now : Nat) (p : SignalPayload) : StoredSignal :=
  { userId := p.userId, interactionId := p.interactionId, track := p.track,
    topic := p.topic, signalType := p.signalType, value := p.value,
    windowHours := p.windowHours, createdAt := now }

/-- The unique index `{interactionId: 1, signalType: 1}`: does the
collection already hold a signal with this key? -/
def hasKey (store : List StoredSignal) (iid : Nat) (ty : String) : Bool :=
  store.any (fun s => s.interactionId == iid && s.signalType == ty)

/-- Result record of one extraction pass. -/
structure ExtractResult where
  created : Nat
  skipped : Nat
  signals : List StoredSignal
  deriving DecidableEq

/-- The write loop of `extractSignalsFromInteraction`: each `create` against
the unique (interactionId, signalType) index either inserts or raises the
duplicate-key error 11000, which is counted as skipped. -/
def writeSignals (now : Nat) : List SignalPayload → List StoredSignal →
    ExtractResult × List StoredSignal
  | [], store => ({ created := 0, skipped := 0, signals := [] }, store)
  | p :: rest, store =>
    if hasKey store p.interactionId p.signalType then
      let res := writeSignals now rest store
      ({ res.1 with skipped := res.1.skipped + 1 }, res.2)
    else
      let doc := mkStored now p
      let res := writeSignals now rest (store ++ [doc])
      ({ created := res.1.created + 1, skipped := res.1.skipped,
         signals := doc :: res.1.signals }, res.2)

/-- The role gate `interaction.role && interaction.role !== "STUDENT"`
(JS truthiness: an absent, null or empty role is falsy). -/
def roleGateBlocks (role : Option String) : Bool :=
  match role with
  | none => false
  | some r => !(r == "") && !(r == "STUDENT")

/-- `StruggleSignalService.extractSignalsFromInteraction`, with the window
query result `recent` and the clock `now` passed explicitly. -/
def extractSignalsFromInteraction (i : AIInteraction) (recent : List AIInteraction)
    (now wh : Nat) (store : List StoredSignal) : ExtractResult × List StoredSignal :=
  if roleGateBlocks i.role then ({ created := 0, skipped := 0, signals := [] }, store)
  else writeSignals now (computePayloads i recent now wh) store

/-- `StruggleScoringService.WEIGHTS`, in declaration order. -/
def WEIGHTS : List (String × ℚ) :=
  [("REPEATED_TOPIC", 0.25), ("FAILED_ATTEMPT", 0.20), ("NEGATIVE_SENTIMENT", 0.15),
   ("ENGAGEMENT_DROP", 0.15), ("LONG_RESPONSE_TIME", 0.15), ("HINT_DEPENDENCY", 0.10)]

/-- Maximum magnitude observed for a signal kind (0 when absent), i.e. the
`aggregated` dictionary of `recomputeForUser`. -/
def aggregatedMax (signals : List StoredSignal) (ty : String) : ℚ :=
  signals.foldl (fun acc s => if s.signalType = ty then max acc s.value else acc) 0

/-- The raw weighted sum Σ weight × per-kind max magnitude. -/
def rawScore (signals : List StoredSignal) : ℚ :=
  (WEIGHTS.map (fun wt => wt.2 * aggregatedMax signals wt.1)).sum

/-- One entry of the profile's contributing-signals list. -/
structure ContribSignal where
  signalType : String
  weight : ℚ
  value : ℚ
  deriving DecidableEq

/-- The `contributingSignals` list: the kinds with non-zero aggregated
magnitude, in weight-table order. -/
def contributingSignalsOf (signals : List StoredSignal) : List ContribSignal :=
  WEIGHTS.filterMap (fun wt =>
    let v := aggregatedMax signals wt.1
    if 0 < v then some { signalType := wt.1, weight := wt.2, value := v } else none)

/-- JS `Math.round`: round half toward positive infinity. -/
def jsRound (q : ℚ) : Int := ⌊q + 1 / 2⌋

/-- Map raw ∈ [0,1] onto the 1..10 score:
`Math.min(10, Math.max(1, Math.round((1 + rawScore * 9) * 10) / 10))`. -/
def struggleScoreOf (raw : ℚ) : ℚ :=
  min 10 (max 1 ((jsRound ((1 + raw * 9) * 10) : ℚ) / 10))

/-- Trend against the previous stored score, with a 0.5 dead band. -/
def trendOf (newScore : ℚ) (prev : Option ℚ) : String :=
  match prev with
  | none => "STABLE"
  | some p => if p + 0.5 < newScore then "UP" else if newScore < p - 0.5 then "DOWN" else "STABLE"

/-- Support level thresholds on the new score. -/
def supportLevelOf (s : ℚ) : String :=
  if 7 ≤ s then "HIGH" else if 4 ≤ s then "MEDIUM" else "LOW"

/-- `s.signalType.replace(/_/g, " ").toLowerCase()`. -/
def humanizeType (ty : String) : String := strLower (String.replace ty "_" " ")

/-- Reason summary: the first two contributing kinds, humanized and joined. -/
def reasonSummaryOf (contrib : List ContribSignal) : String :=
  String.intercalate " & " ((contrib.take 2).map (fun c => humanizeType c.signalType))

/-- The payload `_upsertProfile` writes for a user. -/
structure StruggleProfileData where
  struggleScore : ℚ
  trend : String
  supportLevel : String
  contributingSignals : List ContribSignal
  lastReasonSummary : String
  deriving DecidableEq

/-- The reset profile written when the window holds no signals. -/
def baselineProfile : StruggleProfileData :=
  { struggleScore := 1, trend := "STABLE", supportLevel := "LOW",
    contributingSignals := [], lastReasonSummary := "" }

/-- The pure core of `recomputeForUser`: from the window's signals and the
previously stored score to the new profile data. -/
def recomputeCore (signals : List StoredSignal) (prevScore : Option ℚ) :
    StruggleProfileData :=
  if signals.length = 0 then baselineProfile
  else
    let score := struggleScoreOf (rawScore signals)
    let contrib := contributingSignalsOf signals
    { struggleScore := score, trend := trendOf score prevScore,
      supportLevel := supportLevelOf score,
      contributingSignals := contrib, lastReasonSummary := reasonSummaryOf contrib }

/-- The StruggleProfile collection: at most one entry per user id. -/
abbrev ProfileStore := List (Nat × StruggleProfileData)

/-- `StruggleProfile.findOne({ userId })`. -/
def findProfile (profiles : ProfileStore) (userId : Nat) : Option StruggleProfileData :=
  (profiles.find? (fun pr => pr.1 == userId)).map (fun pr => pr.2)

/-- `findOneAndUpdate({userId}, data, {upsert: true})`. -/
def upsertProfile (profiles : ProfileStore) (userId : Nat) (d : StruggleProfileData) :
    ProfileStore :=
  if profiles.any (fun pr => pr.1 == userId) then
    profiles.map (fun pr => if pr.1 == userId then (userId, d) else pr)
  else profiles ++ [(userId, d)]

/-- The signals query of `recomputeForUser`: same user, created in window. -/
def signalsInWindow (store : List StoredSignal) (userId : Nat) (since : Nat) :
    List StoredSignal :=
  store.filter (fun s => s.userId == userId && decide (since ≤ s.createdAt))

/-- `StruggleScoringService.recomputeForUser` over explicit stores; returns
the written profile data and the updated profile collection. -/
def recomputeForUser (userId now windowHours : Nat) (signalStore : List StoredSignal)
    (profiles : ProfileStore) : StruggleProfileData × ProfileStore :=
  let since := now - windowHours * 60 * 60 * 1000
  let signals := signalsInWindow signalStore userId since
  let prev := (findProfile profiles userId).map (fun d => d.struggleScore)
  let d := recomputeCore signals prev
  (d, upsertProfile profiles userId d)

/-- One TutorAlert document (`timestamps: true` stamps `createdAt`; the
ObjectId is modelled as a fresh Nat). -/
structure TutorAlert where
  id : Nat
  tutorId : Nat
  studentId : Nat
  urgency : String
  topic : String
  struggleScore : ℚ
  reasonSummary : String
  isRead : Bool
  createdAt : Nat
  deriving DecidableEq

abbrev AlertStore := List TutorAlert

/-- `COOLDOWN_HOURS = 24`, in milliseconds. -/
def cooldownMs : Nat := 24 * 60 * 60 * 1000

/-- The cooldown query: any alert for this (tutor, student) pair created at
or after `since`. -/
def hasRecentAlert (store : AlertStore) (tutorId studentId since : Nat) : Bool :=
  store.any (fun a => a.tutorId == tutorId && a.studentId == studentId &&
    decide (since ≤ a.createdAt))

/-- The alert document `TutorAlert.create` builds from the profile. -/
def mkAlert (p : StruggleProfileData) (tutorId studentId now fresh : Nat) : TutorAlert :=
  { id := fresh, tutorId := tutorId, studentId := studentId,
    urgency := if 9 ≤ p.struggleScore then "URGENT" else "SOFT",
    topic := if p.lastReasonSummary = "" then "current topic" else p.lastReasonSummary,
    struggleScore := p.struggleScore,
    reasonSummary := "A learner you helped before may benefit from support.",
    isRead := false, createdAt := now }

/-- The per-tutor loop of `createAlertsIfNeeded`: skip tutors inside the
cooldown window, create and collect an alert for the others. -/
def createAlertsLoop (now : Nat) (p : StruggleProfileData) (studentId : Nat) :
    List Nat → AlertStore → List TutorAlert × AlertStore
  | [], store => ([], store)
  | tutorId :: rest, store =>
    if hasRecentAlert store tutorId studentId (now - cooldownMs) then
      createAlertsLoop now p studentId rest store
    else
      let alert := mkAlert p tutorId studentId now store.length
      let res := createAlertsLoop now p studentId rest (store ++ [alert])
      (alert :: res.1, res.2)

/-- `TutorAlertService.createAlertsIfNeeded` over explicit inputs: the
student's profile, the care network's tutor list, the clock and the alert
collection. -/
def createAlertsIfNeeded (studentId : Nat) (profile : Option StruggleProfileData)
    (network : Option (List Nat)) (now : Nat) (store : AlertStore) :
    List TutorAlert × AlertStore :=
  match profile with
  | none => ([], store)
  | some p =>
    if (¬ (p.supportLevel = "HIGH" ∧ p.trend = "UP")) ∧ p.struggleScore < 9 then
      ([], store)
    else
      match network with
      | none => ([], store)
      | some tutorIds =>
        if tutorIds.length = 0 then ([], store)
        else createAlertsLoop now p studentId tutorIds store

/-- `TutorAlertService.markAsRead`: `findOneAndUpdate({_id, tutorId},
{isRead: true}, {new: true})` — update the first document matching both
keys, return it; return null when nothing matches. -/
def markAsRead (alertId tutorId : Nat) : AlertStore → Option TutorAlert × AlertStore
  | [] => (none, [])
  | a :: rest =>
    if a.id = alertId ∧ a.tutorId = tutorId then
      (some { a with isRead := true }, { a with isRead := true } :: rest)
    else
      let res := markAsRead alertId tutorId rest
      (res.1, a :: res.2)

/-- Number of stored signals with a given (interactionId, signalType) key. -/
def countKey (store : List StoredSignal) (iid : Nat) (ty : String) : Nat :=
  (store.filter (fun s => s.interactionId == iid && s.signalType == ty)).length

/-- Number of alerts in a list for one (tutor, student) pair. -/
def countPairAlerts (alerts : List TutorAlert) (tutorId studentId : Nat) : Nat :=
  (alerts.filter (fun a => a.tutorId == tutorId && a.studentId == studentId)).length

/-! ## Concrete fixtures used by witnesses -/

/-- Fixture: a stored FAILED_ATTEMPT signal of magnitude 1. -/
def sampleFailedSignal : StoredSignal :=
  { userId := 7, interactionId := 1, track := "general", topic := "recursion",
    signalType := "FAILED_ATTEMPT", value := 1, windowHours := 24, createdAt := 0 }

/-- Fixture: a previously stored high-score profile. -/
def sampleHighProfile : StruggleProfileData :=
  { struggleScore := 9.2, trend := "UP", supportLevel := "HIGH",
    contributingSignals := [], lastReasonSummary := "recursion" }

/-- Fixture: the profile of the critical-score scenario — score 9.2 with
stable trend and medium support level. -/
def scenarioProfile : StruggleProfileData :=
  { struggleScore := 9.2, trend := "STABLE", supportLevel := "MEDIUM",
    contributingSignals := [], lastReasonSummary := "recursion" }

/-- Fixture: an interaction attributed to the ALUMNI role. -/
def sampleAlumniInteraction : AIInteraction :=
  { id := 1, userId := 2, role := some "ALUMNI", track := none, topicOneLine := none,
    inputText := none, status := none, processingTime := none, createdAt := 0 }

/-- Fixture: a failed STUDENT interaction with empty input text. -/
def sampleFailedInteraction : AIInteraction :=
  { id := 1, userId := 7, role := some "STUDENT", track := some "web",
    topicOneLine := some "recursion", inputText := some "", status := some "FAILED",
    processingTime := none, createdAt := 1000 }

/-- Fixture: a failed interaction carrying no role value. -/
def sampleRolelessInteraction : AIInteraction :=
  { id := 4, userId := 9, role := none, track := none, topicOneLine := none,
    inputText := some "", status := some "FAILED", processingTime := none,
    createdAt := 500 }

/-- Fixture: a mid-score profile that does not pass the eligibility gate. -/
def sampleMediumProfile : StruggleProfileData :=
  { struggleScore := 5, trend := "STABLE", supportLevel := "MEDIUM",
    contributingSignals := [], lastReasonSummary := "recursion" }

/-- Fixture: a high-support rising profile whose score is below the
critical 9 threshold — it passes the gate through the HIGH-and-UP branch
alone. -/
def sampleRisingHighProfile : StruggleProfileData :=
  { struggleScore := 7.5, trend := "UP", supportLevel := "HIGH",
    contributingSignals := [], lastReasonSummary := "recursion" }

/-- Fixture: one stored tutor alert. -/
def sampleAlert : TutorAlert :=
  { id := 3, tutorId := 4, studentId := 5, urgency := "SOFT", topic := "recursion",
    struggleScore := 5, reasonSummary := "fixture", isRead := false, createdAt := 0 }

/-! ## Properties of the linear normalization -/

lemma normalizeLinear_nonneg (x mn mx : ℚ) : 0 ≤ normalizeLinear x mn mx := by
  unfold normalizeLinear
  split_ifs with h1 h2 h3
  · norm_num
  · norm_num
  · norm_num
  · exact div_nonneg (by linarith) (by linarith)

lemma normalizeLinear_le_one (x mn mx : ℚ) : normalizeLinear x mn mx ≤ 1 := by
  unfold normalizeLinear
  split_ifs with h1 h2 h3
  · norm_num
  · norm_num
  · norm_num
  · rw [div_le_one (by linarith)]
    linarith

lemma normalizeLinear_at_min (mn mx : ℚ) : normalizeLinear mn mn mx = 0 := by
  unfold normalizeLinear
  split_ifs <;> first | rfl | linarith

lemma normalizeLinear_at_max (mn mx : ℚ) (h : mn < mx) : normalizeLinear mx mn mx = 1 := by
  unfold normalizeLinear
  split_ifs <;> first | rfl | linarith

lemma normalizeLinear_mono (x y mn mx : ℚ) (hxy : x ≤ y) :
    normalizeLinear x mn mx ≤ normalizeLinear y mn mx := by
  unfold normalizeLinear
  split_ifs
  all_goals try linarith
  all_goals try { exact div_nonneg (by linarith) (by linarith) }
  all_goals try { rw [div_le_one (by linarith)]; linarith }
  all_goals exact (div_le_div_iff_of_pos_right (by linarith)).mpr (by linarith)

/-! ## Bounds for the aggregated maxima -/

lemma foldl_max_init_le (l : List StoredSignal) (ty : String) (init : ℚ) :
    init ≤ l.foldl (fun acc s => if s.signalType = ty then max acc s.value else acc) init := by
  induction l generalizing init with
  | nil => exact le_rfl
  | cons s rest ih =>
    refine le_trans ?_ (ih (if s.signalType = ty then max init s.value else init))
    split_ifs
    · exact le_max_left _ _
    · exact le_rfl

lemma foldl_max_le_of_le (l : List StoredSignal) (ty : String) (b : ℚ)
    (hb : ∀ s ∈ l, s.value ≤ b) :
    ∀ init, init ≤ b →
      l.foldl (fun acc s => if s.signalType = ty then max acc s.value else acc) init ≤ b := by
  induction l with
  | nil => intro init h; exact h
  | cons s rest ih =>
    intro init hinit
    refine ih (fun s hs => hb s (List.mem_cons_of_mem _ hs)) _ ?_
    dsimp only
    split_ifs
    · exact max_le hinit (hb s (List.mem_cons_self _ _))
    · exact hinit

lemma aggregatedMax_nonneg (signals : List StoredSignal) (ty : String) :
    0 ≤ aggregatedMax signals ty :=
  foldl_max_init_le signals ty 0

lemma aggregatedMax_le_one (signals : List StoredSignal) (ty : String)
    (h : ∀ s ∈ signals, s.value ≤ 1) : aggregatedMax signals ty ≤ 1 :=
  foldl_max_le_of_le signals ty 1 h 0 (by norm_num)

lemma struggleScoreOf_bounds (raw : ℚ) :
    1 ≤ struggleScoreOf raw ∧ struggleScoreOf raw ≤ 10 := by
  unfold struggleScoreOf
  constructor
  · exact le_min (by norm_num) (le_max_left _ _)
  · exact min_le_left _ _

end StrugglePipeline

namespace StrugglePipeline

/-- C7 counterexample: with coincident bounds the source normalization
returns 0 at `x = max`, not 1, so the identity `normalize(max,min,max)=1`
fails for the degenerate input min = max = x = 0. -/
theorem C7_normalize_at_max_counterexample : normalizeLinear 0 0 0 ≠ 1 := by
  decide

/-- C7 (amended): for every x, min, max the result of `_normalizeLinear`
lies in [0,1], `normalize(min,min,max) = 0`, and the function is monotone
non-decreasing in x; `normalize(max,min,max) = 1` holds whenever min < max
(when max ≤ min every result is 0). -/
theorem C7_normalize_props (x y mn mx : ℚ) :
    0 ≤ normalizeLinear x mn mx ∧ normalizeLinear x mn mx ≤ 1 ∧
    normalizeLinear mn mn mx = 0 ∧
    (mn < mx → normalizeLinear mx mn mx = 1) ∧
    (x ≤ y → normalizeLinear x mn mx ≤ normalizeLinear y mn mx) :=
  ⟨normalizeLinear_nonneg x mn mx, normalizeLinear_le_one x mn mx,
   normalizeLinear_at_min mn mx, normalizeLinear_at_max mn mx,
   normalizeLinear_mono x y mn mx⟩

/-- C7 witness: the amended properties evaluated at x = 1, y = 2, min = 0,
max = 4. -/
theorem C7_normalize_props_witness :
    0 ≤ normalizeLinear 1 0 4 ∧ normalizeLinear 1 0 4 ≤ 1 ∧
    normalizeLinear 0 0 4 = 0 ∧ normalizeLinear 4 0 4 = 1 ∧
    normalizeLinear 1 0 4 ≤ normalizeLinear 2 0 4 :=
  ⟨(C7_normalize_props 1 2 0 4).1, (C7_normalize_props 1 2 0 4).2.1,
   (C7_normalize_props 1 2 0 4).2.2.1,
   (C7_normalize_props 1 2 0 4).2.2.2.1 (by norm_num),
   (C7_normalize_props 1 2 0 4).2.2.2.2 (by norm_num)⟩

/-- C3: with the fixed weight table (which sums to 1) and any signal set
whose magnitudes lie in [0,1], the raw weighted sum of per-kind maxima lies
in [0,1] and the composite score `clamp(1,10, round((1+raw×9)×10)/10)` lies
in [1,10]. -/
theorem C3_score_bounds (signals : List StoredSignal)
    (h : ∀ s ∈ signals, 0 ≤ s.value ∧ s.value ≤ 1) :
    (WEIGHTS.map (fun wt => wt.2)).sum = 1 ∧
    0 ≤ rawScore signals ∧ rawScore signals ≤ 1 ∧
    1 ≤ struggleScoreOf (rawScore signals) ∧ struggleScoreOf (rawScore signals) ≤ 10 := by
  have hle : ∀ ty, aggregatedMax signals ty ≤ 1 :=
    fun ty => aggregatedMax_le_one signals ty (fun s hs => (h s hs).2)
  have hge : ∀ ty, 0 ≤ aggregatedMax signals ty := aggregatedMax_nonneg signals
  have hraw : rawScore signals =
      0.25 * aggregatedMax signals "REPEATED_TOPIC" +
      0.20 * aggregatedMax signals "FAILED_ATTEMPT" +
      0.15 * aggregatedMax signals "NEGATIVE_SENTIMENT" +
      0.15 * aggregatedMax signals "ENGAGEMENT_DROP" +
      0.15 * aggregatedMax signals "LONG_RESPONSE_TIME" +
      0.10 * aggregatedMax signals "HINT_DEPENDENCY" := by
    simp [rawScore, WEIGHTS]; ring
  refine ⟨by norm_num [WEIGHTS], ?_, ?_,
    (struggleScoreOf_bounds _).1, (struggleScoreOf_bounds _).2⟩
  · rw [hraw]
    have g1 := hge "REPEATED_TOPIC"
    have g2 := hge "FAILED_ATTEMPT"
    have g3 := hge "NEGATIVE_SENTIMENT"
    have g4 := hge "ENGAGEMENT_DROP"
    have g5 := hge "LONG_RESPONSE_TIME"
    have g6 := hge "HINT_DEPENDENCY"
    nlinarith
  · rw [hraw]
    have b1 := hle "REPEATED_TOPIC"
    have b2 := hle "FAILED_ATTEMPT"
    have b3 := hle "NEGATIVE_SENTIMENT"
    have b4 := hle "ENGAGEMENT_DROP"
    have b5 := hle "LONG_RESPONSE_TIME"
    have b6 := hle "HINT_DEPENDENCY"
    nlinarith

/-- C3 witness: the bounds at the concrete one-signal collection holding a
FAILED_ATTEMPT signal of magnitude 1. -/
theorem C3_score_bounds_witness :
    (WEIGHTS.map (fun wt => wt.2)).sum = 1 ∧
    0 ≤ rawScore [sampleFailedSignal] ∧ rawScore [sampleFailedSignal] ≤ 1 ∧
    1 ≤ struggleScoreOf (rawScore [sampleFailedSignal]) ∧
    struggleScoreOf (rawScore [sampleFailedSignal]) ≤ 10 :=
  C3_score_bounds [sampleFailedSignal] (by decide)

/-! ## Profile upsert lookup -/

lemma find?_map_upsert (userId : Nat) (d : StruggleProfileData) :
    ∀ l : ProfileStore, l.any (fun pr => pr.1 == userId) = true →
    (l.map (fun pr => if pr.1 == userId then (userId, d) else pr)).find?
      (fun pr => pr.1 == userId) = some (userId, d) := by
  intro l
  induction l with
  | nil => intro h; simp at h
  | cons pr rest ih =>
    intro h
    by_cases hpr : (pr.1 == userId) = true
    · simp only [List.map_cons, if_pos hpr]
      exact List.find?_cons_of_pos _ (by simp)
    · have hrest : rest.any (fun pr => pr.1 == userId) = true := by
        rw [List.any_cons, Bool.or_eq_true] at h
        rcases h with h | h
        · exact absurd h hpr
        · exact h
      simp only [List.map_cons, if_neg hpr]
      rw [List.find?_cons_of_neg _ (by simpa using hpr)]
      exact ih hrest

lemma find?_append_single (userId : Nat) (d : StruggleProfileData) :
    ∀ l : ProfileStore, l.any (fun pr => pr.1 == userId) = false →
    (l ++ [(userId, d)]).find? (fun pr => pr.1 == userId) = some (userId, d) := by
  intro l
  induction l with
  | nil => intro _; simp [List.find?]
  | cons pr rest ih =>
    intro h
    rw [List.any_cons, Bool.or_eq_false_iff] at h
    rw [List.cons_append, List.find?_cons_of_neg _ (by simp [h.1])]
    exact ih h.2

lemma findProfile_upsertProfile (profiles : ProfileStore) (userId : Nat)
    (d : StruggleProfileData) :
    findProfile (upsertProfile profiles userId d) userId = some d := by
  unfold upsertProfile
  cases hb : profiles.any (fun pr => pr.1 == userId) with
  | true =>
    rw [if_pos rfl]
    unfold findProfile
    rw [find?_map_upsert userId d profiles hb]
    rfl
  | false =>
    rw [if_neg (by simp)]
    unfold findProfile
    rw [find?_append_single userId d profiles hb]
    rfl

/-- C6: when the evaluation window holds no signals for the user,
`recomputeForUser` writes the baseline profile — score 1, stable trend, low
support, no contributing signals, empty reason — over whatever profile was
stored before, for every prior profile store (and, being a total function,
without failing). -/
theorem C6_empty_window_reset (userId now windowHours : Nat)
    (signalStore : List StoredSignal) (profiles : ProfileStore)
    (h : signalsInWindow signalStore userId (now - windowHours * 60 * 60 * 1000) = []) :
    (recomputeForUser userId now windowHours signalStore profiles).1 =
      { struggleScore := 1, trend := "STABLE", supportLevel := "LOW",
        contributingSignals := [], lastReasonSummary := "" } ∧
    findProfile (recomputeForUser userId now windowHours signalStore profiles).2 userId =
      some { struggleScore := 1, trend := "STABLE", supportLevel := "LOW",
             contributingSignals := [], lastReasonSummary := "" } := by
  have hcore : recomputeForUser userId now windowHours signalStore profiles =
      (baselineProfile, upsertProfile profiles userId baselineProfile) := by
    simp [recomputeForUser, h, recomputeCore]
  rw [hcore]
  exact ⟨rfl, findProfile_upsertProfile profiles userId baselineProfile⟩

/-- C6 witness: the reset evaluated against a store whose only signal is
outside the window and a previously stored high-score profile. -/
theorem C6_empty_window_reset_witness :
    (recomputeForUser 7 (10 ^ 9) 24 [sampleFailedSignal] [(7, sampleHighProfile)]).1 =
      { struggleScore := 1, trend := "STABLE", supportLevel := "LOW",
        contributingSignals := [], lastReasonSummary := "" } ∧
    findProfile
      (recomputeForUser 7 (10 ^ 9) 24 [sampleFailedSignal] [(7, sampleHighProfile)]).2 7 =
      some { struggleScore := 1, trend := "STABLE", supportLevel := "LOW",
             contributingSignals := [], lastReasonSummary := "" } :=
  C6_empty_window_reset 7 (10 ^ 9) 24 [sampleFailedSignal] [(7, sampleHighProfile)]
    (by decide)

/-- C8: an interaction attributed to a present, non-empty role other than
STUDENT makes `extractSignalsFromInteraction` return the empty result
immediately, leaving the signal store untouched. -/
theorem C8_role_gate (i : AIInteraction) (recent : List AIInteraction) (now wh : Nat)
    (store : List StoredSignal) (r : String)
    (hrole : i.role = some r) (hne : r ≠ "") (hns : r ≠ "STUDENT") :
    extractSignalsFromInteraction i recent now wh store =
      ({ created := 0, skipped := 0, signals := [] }, store) := by
  unfold extractSignalsFromInteraction
  have hb : roleGateBlocks i.role = true := by
    rw [hrole]; simp [roleGateBlocks, hne, hns]
  rw [if_pos hb]

/-- C8 witness: an ALUMNI interaction produces the empty result. -/
theorem C8_role_gate_witness :
    extractSignalsFromInteraction sampleAlumniInteraction [] 0 24 [] =
      ({ created := 0, skipped := 0, signals := [] }, []) :=
  C8_role_gate sampleAlumniInteraction [] 0 24 [] "ALUMNI" rfl (by decide) (by decide)

/-! ## Evaluating one extraction pass on a lone failed interaction -/

lemma foldl_skip_all {α : Type _} (g : α → Bool) (upd : Int → α → Int) :
    ∀ (l : List α) (s : Int), (∀ w ∈ l, g w = false) →
    l.foldl (fun acc w => if g w then upd acc w else acc) s = s := by
  intro l
  induction l with
  | nil => intro s _; rfl
  | cons a rest ih =>
    intro s h
    have ha : g a = false := h a (List.mem_cons_self _ _)
    simp only [List.foldl_cons, ha, Bool.false_eq_true, if_false]
    exact ih s (fun w hw => h w (List.mem_cons_of_mem _ hw))

lemma sentimentLexiconScore_eq_zero (t : String)
    (hneg : ∀ w ∈ negativeWords, strIncludes (strLower t) w = false)
    (hpos : ∀ w ∈ positiveWords, strIncludes (strLower t) w = false) :
    sentimentLexiconScore t = 0 := by
  simp only [sentimentLexiconScore]
  rw [foldl_skip_all _ _ negativeWords 0 hneg]
  rw [foldl_skip_all _ _ positiveWords 0 hpos]
  norm_num

lemma aggregatedMax_singleton (d : StoredSignal) (ty : String) :
    aggregatedMax [d] ty = if d.signalType = ty then max 0 d.value else 0 := rfl

lemma rawScore_single_failed (d : StoredSignal) (hty : d.signalType = "FAILED_ATTEMPT")
    (hv : d.value = 1) : rawScore [d] = 0.20 := by
  simp [rawScore, WEIGHTS, aggregatedMax_singleton, hty, hv]

lemma computePayloads_singleton_failed (i : AIInteraction) (now : Nat)
    (hstatus : i.status = some "FAILED")
    (hlat : i.processingTime = none)
    (hneg : ∀ w ∈ negativeWords, strIncludes (strLower (getText i)) w = false)
    (hpos : ∀ w ∈ positiveWords, strIncludes (strLower (getText i)) w = false)
    (hhint : isHintText (getText i) = false) :
    computePayloads i [i] now 24 =
      [mkSignal i (orDefault i.track "general") (getTopic i) "FAILED_ATTEMPT" 1 24] := by
  have h1 : failedAttemptSignal i (orDefault i.track "general") (getTopic i) 24 =
      some (mkSignal i (orDefault i.track "general") (getTopic i) "FAILED_ATTEMPT" 1 24) := by
    simp [failedAttemptSignal, hstatus]
  have h2 : repeatedTopicSignal i [i] (orDefault i.track "general") (getTopic i) 24 = none := by
    simp [repeatedTopicSignal, sameTopicCount, List.filter]
  have h3 : longResponseSignal i [i] (orDefault i.track "general") (getTopic i) 24 = none := by
    simp [longResponseSignal, hlat]
  have h4 : negativeSentimentSignal i (orDefault i.track "general") (getTopic i) 24 = none := by
    have hs := sentimentLexiconScore_eq_zero (getText i) hneg hpos
    simp only [negativeSentimentSignal, hs]
    rw [if_neg (by norm_num [clamp01])]
  have h5 : hintDependencySignal i [i] (orDefault i.track "general") (getTopic i) 24 = none := by
    simp [hintDependencySignal, hhint]
  have h6 : engagementDropSignal i [i] now (orDefault i.track "general") (getTopic i) 24 =
      none := by
    simp [engagementDropSignal, computeEngagementDrop]
  show (failedAttemptSignal i (orDefault i.track "general") (getTopic i) 24).toList ++
    (repeatedTopicSignal i [i] (orDefault i.track "general") (getTopic i) 24).toList ++
    (longResponseSignal i [i] (orDefault i.track "general") (getTopic i) 24).toList ++
    (negativeSentimentSignal i (orDefault i.track "general") (getTopic i) 24).toList ++
    (hintDependencySignal i [i] (orDefault i.track "general") (getTopic i) 24).toList ++
    (engagementDropSignal i [i] now (orDefault i.track "general") (getTopic i) 24).toList = _
  rw [h1, h2, h3, h4, h5, h6]
  rfl

/-- C5: a failed learner interaction that is alone in its lookback window
and whose input text matches no lexicon or hint phrase yields exactly one
signal — FAILED_ATTEMPT with magnitude exactly 1 — and aggregating over
only that signal gives raw = 0.20, score = 2.8 and support level LOW. -/
theorem C5_single_failed_scenario (i : AIInteraction) (now : Nat)
    (hrole : i.role = some "STUDENT")
    (hstatus : i.status = some "FAILED")
    (hlat : i.processingTime = none)
    (hneg : ∀ w ∈ negativeWords, strIncludes (strLower (getText i)) w = false)
    (hpos : ∀ w ∈ positiveWords, strIncludes (strLower (getText i)) w = false)
    (hhint : isHintText (getText i) = false) :
    (extractSignalsFromInteraction i [i] now 24 []).1.created = 1 ∧
    (extractSignalsFromInteraction i [i] now 24 []).1.skipped = 0 ∧
    (extractSignalsFromInteraction i [i] now 24 []).2 =
      [mkStored now (mkSignal i (orDefault i.track "general") (getTopic i)
        "FAILED_ATTEMPT" 1 24)] ∧
    (mkSignal i (orDefault i.track "general") (getTopic i) "FAILED_ATTEMPT" 1 24).value = 1 ∧
    rawScore (extractSignalsFromInteraction i [i] now 24 []).2 = 0.20 ∧
    (recomputeCore (extractSignalsFromInteraction i [i] now 24 []).2 none).struggleScore =
      2.8 ∧
    (recomputeCore (extractSignalsFromInteraction i [i] now 24 []).2 none).supportLevel =
      "LOW" := by
  have hext : extractSignalsFromInteraction i [i] now 24 [] =
      ({ created := 1, skipped := 0,
         signals := [mkStored now (mkSignal i (orDefault i.track "general") (getTopic i)
           "FAILED_ATTEMPT" 1 24)] },
       [mkStored now (mkSignal i (orDefault i.track "general") (getTopic i)
         "FAILED_ATTEMPT" 1 24)]) := by
    unfold extractSignalsFromInteraction
    rw [if_neg (by simp [roleGateBlocks, hrole])]
    rw [computePayloads_singleton_failed i now hstatus hlat hneg hpos hhint]
    rfl
  have hv : (mkStored now (mkSignal i (orDefault i.track "general") (getTopic i)
      "FAILED_ATTEMPT" 1 24)).value = 1 := by
    show clamp01 1 = 1
    norm_num [clamp01]
  have hraw2 : rawScore [mkStored now (mkSignal i (orDefault i.track "general") (getTopic i)
      "FAILED_ATTEMPT" 1 24)] = 0.20 := rawScore_single_failed _ rfl hv
  have hcore : recomputeCore (extractSignalsFromInteraction i [i] now 24 []).2 none =
      recomputeCore [mkStored now (mkSignal i (orDefault i.track "general") (getTopic i)
        "FAILED_ATTEMPT" 1 24)] none := by rw [hext]
  have hcoreval : recomputeCore [mkStored now (mkSignal i (orDefault i.track "general")
      (getTopic i) "FAILED_ATTEMPT" 1 24)] none =
      { struggleScore := struggleScoreOf (rawScore [mkStored now (mkSignal i
          (orDefault i.track "general") (getTopic i) "FAILED_ATTEMPT" 1 24)]),
        trend := trendOf (struggleScoreOf (rawScore [mkStored now (mkSignal i
          (orDefault i.track "general") (getTopic i) "FAILED_ATTEMPT" 1 24)])) none,
        supportLevel := supportLevelOf (struggleScoreOf (rawScore [mkStored now (mkSignal i
          (orDefault i.track "general") (getTopic i) "FAILED_ATTEMPT" 1 24)])),
        contributingSignals := contributingSignalsOf [mkStored now (mkSignal i
          (orDefault i.track "general") (getTopic i) "FAILED_ATTEMPT" 1 24)],
        lastReasonSummary := reasonSummaryOf (contributingSignalsOf [mkStored now (mkSignal i
          (orDefault i.track "general") (getTopic i) "FAILED_ATTEMPT" 1 24)]) } := by
    simp only [recomputeCore]
    rw [if_neg (by simp)]
  have hss : (recomputeCore [mkStored now (mkSignal i (orDefault i.track "general")
      (getTopic i) "FAILED_ATTEMPT" 1 24)] none).struggleScore = 2.8 := by
    rw [hcoreval]
    show struggleScoreOf (rawScore [mkStored now (mkSignal i (orDefault i.track "general")
      (getTopic i) "FAILED_ATTEMPT" 1 24)]) = 2.8
    rw [hraw2]
    norm_num [struggleScoreOf, jsRound]
  have hsl : (recomputeCore [mkStored now (mkSignal i (orDefault i.track "general")
      (getTopic i) "FAILED_ATTEMPT" 1 24)] none).supportLevel = "LOW" := by
    rw [hcoreval]
    show supportLevelOf (struggleScoreOf (rawScore [mkStored now (mkSignal i
      (orDefault i.track "general") (getTopic i) "FAILED_ATTEMPT" 1 24)])) = "LOW"
    rw [hraw2]
    norm_num [supportLevelOf, struggleScoreOf, jsRound]
  refine ⟨by rw [hext], by rw [hext], by rw [hext], by simpa [mkStored] using hv,
    by rw [hext]; exact hraw2, by rw [hcore]; exact hss, by rw [hcore]; exact hsl⟩

/-- C5 witness: the scenario evaluated at the concrete failed STUDENT
interaction fixture. -/
theorem C5_single_failed_scenario_witness :
    (extractSignalsFromInteraction sampleFailedInteraction [sampleFailedInteraction] 2000 24
      []).1.created = 1 ∧
    (extractSignalsFromInteraction sampleFailedInteraction [sampleFailedInteraction] 2000 24
      []).1.skipped = 0 ∧
    (extractSignalsFromInteraction sampleFailedInteraction [sampleFailedInteraction] 2000 24
      []).2 = [mkStored 2000 (mkSignal sampleFailedInteraction
        (orDefault sampleFailedInteraction.track "general") (getTopic sampleFailedInteraction)
        "FAILED_ATTEMPT" 1 24)] ∧
    (mkSignal sampleFailedInteraction (orDefault sampleFailedInteraction.track "general")
      (getTopic sampleFailedInteraction) "FAILED_ATTEMPT" 1 24).value = 1 ∧
    rawScore (extractSignalsFromInteraction sampleFailedInteraction [sampleFailedInteraction]
      2000 24 []).2 = 0.20 ∧
    (recomputeCore (extractSignalsFromInteraction sampleFailedInteraction
      [sampleFailedInteraction] 2000 24 []).2 none).struggleScore = 2.8 ∧
    (recomputeCore (extractSignalsFromInteraction sampleFailedInteraction
      [sampleFailedInteraction] 2000 24 []).2 none).supportLevel = "LOW" :=
  C5_single_failed_scenario sampleFailedInteraction 2000 rfl rfl rfl (by decide) (by decide)
    (by decide)

/-- C10: the role gate does not short-circuit on an absent or empty role —
extraction proceeds with the full signal computation (demonstrated by a
roleless failed interaction that still produces its FAILED_ATTEMPT signal),
and the gate blocks exactly when a role value is present, non-empty and
different from STUDENT. -/
theorem C10_role_gate_falsy_edge :
    (∀ (i : AIInteraction) (recent : List AIInteraction) (now wh : Nat)
        (store : List StoredSignal),
      i.role = none ∨ i.role = some "" →
      extractSignalsFromInteraction i recent now wh store =
        writeSignals now (computePayloads i recent now wh) store) ∧
    (∀ r : String, roleGateBlocks (some r) = true ↔ (r ≠ "" ∧ r ≠ "STUDENT")) ∧
    (extractSignalsFromInteraction sampleRolelessInteraction [sampleRolelessInteraction]
        600 24 []).1.created = 1 := by
  refine ⟨?_, ?_, ?_⟩
  · intro i recent now wh store h
    have hb : roleGateBlocks i.role = false := by
      rcases h with h | h <;> rw [h] <;> simp [roleGateBlocks]
    unfold extractSignalsFromInteraction
    rw [if_neg (by simp [hb])]
  · intro r
    simp [roleGateBlocks]
  · have hp := computePayloads_singleton_failed sampleRolelessInteraction 600 rfl rfl
      (by decide) (by decide) (by decide)
    unfold extractSignalsFromInteraction
    rw [if_neg (by decide)]
    rw [hp]
    rfl

/-- C10 witness: extraction on the roleless fixture equals the full
(ungated) write pipeline. -/
theorem C10_role_gate_falsy_edge_witness :
    extractSignalsFromInteraction sampleRolelessInteraction [] 600 24 [] =
      writeSignals 600 (computePayloads sampleRolelessInteraction [] 600 24) [] :=
  C10_role_gate_falsy_edge.1 sampleRolelessInteraction [] 600 24 [] (Or.inl rfl)

/-! ## Idempotence of the signal write loop -/

lemma countKey_append (s1 s2 : List StoredSignal) (iid : Nat) (ty : String) :
    countKey (s1 ++ s2) iid ty = countKey s1 iid ty + countKey s2 iid ty := by
  simp [countKey, List.filter_append]

lemma hasKey_eq_false_iff (store : List StoredSignal) (iid : Nat) (ty : String) :
    hasKey store iid ty = false ↔ countKey store iid ty = 0 := by
  simp [hasKey, countKey, List.any_eq_false, List.length_eq_zero, List.filter_eq_nil_iff]

lemma writeSignals_countKey_le (now : Nat) :
    ∀ (ps : List SignalPayload) (store : List StoredSignal) (iid : Nat) (ty : String),
    countKey (writeSignals now ps store).2 iid ty ≤ max (countKey store iid ty) 1 := by
  intro ps
  induction ps with
  | nil =>
    intro store iid ty
    simp [writeSignals]
  | cons p rest ih =>
    intro store iid ty
    by_cases h : hasKey store p.interactionId p.signalType = true
    · have hsnd : (writeSignals now (p :: rest) store).2 = (writeSignals now rest store).2 := by
        simp [writeSignals, h]
      rw [hsnd]
      exact ih store iid ty
    · have hfalse : hasKey store p.interactionId p.signalType = false := by simpa using h
      have hsnd : (writeSignals now (p :: rest) store).2 =
          (writeSignals now rest (store ++ [mkStored now p])).2 := by
        simp [writeSignals, hfalse]
      rw [hsnd]
      refine le_trans (ih (store ++ [mkStored now p]) iid ty) ?_
      rw [countKey_append, Nat.max_le]
      refine ⟨?_, le_max_right _ _⟩
      by_cases hk : p.interactionId = iid ∧ p.signalType = ty
      · have h0 : countKey store iid ty = 0 := by
          rw [← hk.1, ← hk.2]
          exact (hasKey_eq_false_iff _ _ _).mp hfalse
        have h1 : countKey [mkStored now p] iid ty ≤ 1 := List.length_filter_le _ _
        rw [h0]
        exact le_trans (by simpa using h1) (le_max_right _ 1)
      · have hb : ((mkStored now p).interactionId == iid &&
            (mkStored now p).signalType == ty) = false := by
          rw [Bool.and_eq_false_iff]
          rcases not_and_or.mp hk with h' | h'
          · left; simpa [mkStored] using h'
          · right; simpa [mkStored] using h'
        have h2 : countKey [mkStored now p] iid ty = 0 := by
          simp [countKey, List.filter, hb]
        rw [h2]
        simpa using le_max_left (countKey store iid ty) 1

/-- C2: starting from a store holding no signal for the interaction, two
extraction passes over the same interaction leave at most one stored signal
per (interaction, kind) key; and a write whose key already exists is counted
as skipped in the result, with the store unchanged, instead of failing. -/
theorem C2_extraction_idempotent (i : AIInteraction)
    (recent1 recent2 : List AIInteraction) (now1 now2 wh1 wh2 : Nat)
    (s0 : List StoredSignal) (h0 : ∀ ty, countKey s0 i.id ty = 0) :
    (∀ ty, countKey
        (extractSignalsFromInteraction i recent2 now2 wh2
          (extractSignalsFromInteraction i recent1 now1 wh1 s0).2).2 i.id ty ≤ 1) ∧
    (∀ (p : SignalPayload) (store : List StoredSignal),
      hasKey store p.interactionId p.signalType = true →
      writeSignals now2 [p] store =
        ({ created := 0, skipped := 1, signals := [] }, store)) := by
  constructor
  · intro ty
    have step : ∀ (recent : List AIInteraction) (now wh : Nat) (store : List StoredSignal),
        countKey (extractSignalsFromInteraction i recent now wh store).2 i.id ty ≤
          max (countKey store i.id ty) 1 := by
      intro recent now wh store
      unfold extractSignalsFromInteraction
      split_ifs
      · exact le_max_left _ _
      · exact writeSignals_countKey_le now _ store i.id ty
    have h1 := step recent1 now1 wh1 s0
    rw [h0 ty] at h1
    refine le_trans (step recent2 now2 wh2 _) ?_
    rw [Nat.max_le]
    exact ⟨by simpa using h1, le_rfl⟩
  · intro p store h
    simp [writeSignals, h]

/-- C2 witness: two passes over the failed-interaction fixture leave at most
one FAILED_ATTEMPT signal for it. -/
theorem C2_extraction_idempotent_witness :
    countKey
      (extractSignalsFromInteraction sampleFailedInteraction [sampleFailedInteraction] 3000 24
        (extractSignalsFromInteraction sampleFailedInteraction [sampleFailedInteraction] 2000 24
          []).2).2 sampleFailedInteraction.id "FAILED_ATTEMPT" ≤ 1 :=
  (C2_extraction_idempotent sampleFailedInteraction [sampleFailedInteraction]
    [sampleFailedInteraction] 2000 3000 24 24 [] (fun _ => rfl)).1 "FAILED_ATTEMPT"

/-! ## Mark-as-read frame condition -/

lemma markAsRead_nomatch (alertId tutorId : Nat) :
    ∀ store : AlertStore, (∀ a ∈ store, ¬ (a.id = alertId ∧ a.tutorId = tutorId)) →
    markAsRead alertId tutorId store = (none, store) := by
  intro store
  induction store with
  | nil => intro _; rfl
  | cons a rest ih =>
    intro h
    have ha := h a (List.mem_cons_self _ _)
    have hrest := ih (fun b hb => h b (List.mem_cons_of_mem _ hb))
    simp [markAsRead, ha, hrest]

lemma markAsRead_get? (alertId tutorId : Nat) :
    ∀ (store : AlertStore) (j : Nat),
      (markAsRead alertId tutorId store).2.get? j = store.get? j ∨
      (∃ a, store.get? j = some a ∧ a.id = alertId ∧ a.tutorId = tutorId ∧
        (markAsRead alertId tutorId store).2.get? j = some { a with isRead := true }) := by
  intro store
  induction store with
  | nil => intro j; left; rfl
  | cons a rest ih =>
    intro j
    by_cases ha : a.id = alertId ∧ a.tutorId = tutorId
    · have hsnd : (markAsRead alertId tutorId (a :: rest)).2 =
          { a with isRead := true } :: rest := by simp [markAsRead, ha]
      cases j with
      | zero => exact Or.inr ⟨a, rfl, ha.1, ha.2, by rw [hsnd]; rfl⟩
      | succ n => left; rw [hsnd]; rfl
    · have hsnd : (markAsRead alertId tutorId (a :: rest)).2 =
          a :: (markAsRead alertId tutorId rest).2 := by simp [markAsRead, ha]
      cases j with
      | zero => left; rw [hsnd]; rfl
      | succ n =>
        rw [hsnd]
        exact ih n

lemma markAsRead_unique (alertId tutorId : Nat) :
    ∀ (store : AlertStore) (j k : Nat),
      (markAsRead alertId tutorId store).2.get? j ≠ store.get? j →
      (markAsRead alertId tutorId store).2.get? k ≠ store.get? k → j = k := by
  intro store
  induction store with
  | nil => intro j k hj _; exact absurd rfl hj
  | cons a rest ih =>
    intro j k hj hk
    by_cases ha : a.id = alertId ∧ a.tutorId = tutorId
    · have hsnd : (markAsRead alertId tutorId (a :: rest)).2 =
          { a with isRead := true } :: rest := by simp [markAsRead, ha]
      rw [hsnd] at hj hk
      cases j with
      | zero =>
        cases k with
        | zero => rfl
        | succ m => exact absurd rfl hk
      | succ n => exact absurd rfl hj
    · have hsnd : (markAsRead alertId tutorId (a :: rest)).2 =
          a :: (markAsRead alertId tutorId rest).2 := by simp [markAsRead, ha]
      rw [hsnd] at hj hk
      cases j with
      | zero => exact absurd rfl hj
      | succ n =>
        cases k with
        | zero => exact absurd rfl hk
        | succ m =>
          have hj' : (markAsRead alertId tutorId rest).2.get? n ≠ rest.get? n := hj
          have hk' : (markAsRead alertId tutorId rest).2.get? m ≠ rest.get? m := hk
          rw [ih n m hj' hk']

lemma markAsRead_ret (alertId tutorId : Nat) :
    ∀ (store : AlertStore) (a' : TutorAlert),
      (markAsRead alertId tutorId store).1 = some a' →
      a'.id = alertId ∧ a'.tutorId = tutorId ∧ a'.isRead = true := by
  intro store
  induction store with
  | nil => intro a' h; exact absurd h (by simp [markAsRead])
  | cons a rest ih =>
    intro a' h
    by_cases ha : a.id = alertId ∧ a.tutorId = tutorId
    · have hfst : (markAsRead alertId tutorId (a :: rest)).1 =
          some { a with isRead := true } := by simp [markAsRead, ha]
      rw [hfst] at h
      cases h
      exact ⟨ha.1, ha.2, rfl⟩
    · have hfst : (markAsRead alertId tutorId (a :: rest)).1 =
          (markAsRead alertId tutorId rest).1 := by simp [markAsRead, ha]
      rw [hfst] at h
      exact ih a' h

/-- C9: markAsRead flips only the read flag, and only on the first alert
matching both the alert id and the tutor id; every other position of the
store is unchanged, at most one position changes, any returned document is
the matching one with its read flag set, and when no alert matches both
keys the store is unchanged and null is returned. -/
theorem C9_markAsRead_frame (alertId tutorId : Nat) (store : AlertStore) :
    (∀ j, (markAsRead alertId tutorId store).2.get? j = store.get? j ∨
      (∃ a, store.get? j = some a ∧ a.id = alertId ∧ a.tutorId = tutorId ∧
        (markAsRead alertId tutorId store).2.get? j = some { a with isRead := true })) ∧
    (∀ j k, (markAsRead alertId tutorId store).2.get? j ≠ store.get? j →
      (markAsRead alertId tutorId store).2.get? k ≠ store.get? k → j = k) ∧
    (∀ a', (markAsRead alertId tutorId store).1 = some a' →
      a'.id = alertId ∧ a'.tutorId = tutorId ∧ a'.isRead = true) ∧
    ((∀ a ∈ store, ¬ (a.id = alertId ∧ a.tutorId = tutorId)) →
      markAsRead alertId tutorId store = (none, store)) :=
  ⟨markAsRead_get? alertId tutorId store, markAsRead_unique alertId tutorId store,
   markAsRead_ret alertId tutorId store, markAsRead_nomatch alertId tutorId store⟩

/-- C9 witness: marking with a non-matching tutor id changes nothing and
returns no document. -/
theorem C9_markAsRead_frame_witness :
    markAsRead 1 2 [sampleAlert] = (none, [sampleAlert]) :=
  (C9_markAsRead_frame 1 2 [sampleAlert]).2.2.2 (by decide)


/-! ## Alert cooldown and eligibility gate -/

lemma countPairAlerts_append (l1 l2 : List TutorAlert) (t s : Nat) :
    countPairAlerts (l1 ++ l2) t s = countPairAlerts l1 t s + countPairAlerts l2 t s := by
  simp [countPairAlerts, List.filter_append]

lemma countPairAlerts_cons (a : TutorAlert) (l : List TutorAlert) (t s : Nat) :
    countPairAlerts (a :: l) t s =
      (if a.tutorId = t ∧ a.studentId = s then 1 else 0) + countPairAlerts l t s := by
  by_cases h : a.tutorId = t ∧ a.studentId = s
  · have hb : (a.tutorId == t && a.studentId == s) = true := by simp [h.1, h.2]
    simp [countPairAlerts, List.filter_cons, hb, h]
    omega
  · have hb : (a.tutorId == t && a.studentId == s) = false := by
      rw [Bool.and_eq_false_iff]
      rcases not_and_or.mp h with h' | h'
      · left; simpa using h'
      · right; simpa using h'
    simp [countPairAlerts, List.filter_cons, hb, h]

lemma countPairAlerts_pos (l : List TutorAlert) (t s : Nat)
    (h : countPairAlerts l t s ≠ 0) : ∃ a ∈ l, a.tutorId = t ∧ a.studentId = s := by
  by_contra hc
  push_neg at hc
  apply h
  have hnil : l.filter (fun a => a.tutorId == t && a.studentId == s) = [] := by
    rw [List.filter_eq_nil_iff]
    intro a ha
    have := hc a ha
    simp only [Bool.and_eq_true, beq_iff_eq, not_and]
    intro h1
    exact this h1
  simp [countPairAlerts, hnil]

lemma hasRecentAlert_append (store l : AlertStore) (t s since : Nat)
    (h : hasRecentAlert store t s since = true) :
    hasRecentAlert (store ++ l) t s since = true := by
  unfold hasRecentAlert at h ⊢
  rw [List.any_append, h, Bool.true_or]

lemma hasRecentAlert_of_mem (store : AlertStore) (a : TutorAlert) (t s since : Nat)
    (ha : a ∈ store) (h1 : a.tutorId = t) (h2 : a.studentId = s)
    (h3 : since ≤ a.createdAt) :
    hasRecentAlert store t s since = true := by
  rw [hasRecentAlert, List.any_eq_true]
  exact ⟨a, ha, by simp [h1, h2, h3]⟩

lemma createAlertsLoop_store (now : Nat) (p : StruggleProfileData) (sid : Nat) :
    ∀ (tutors : List Nat) (store : AlertStore),
      (createAlertsLoop now p sid tutors store).2 =
        store ++ (createAlertsLoop now p sid tutors store).1 := by
  intro tutors
  induction tutors with
  | nil => intro store; simp [createAlertsLoop]
  | cons t' rest ih =>
    intro store
    unfold createAlertsLoop
    split_ifs with h
    · exact ih store
    · show (createAlertsLoop now p sid rest
          (store ++ [mkAlert p t' sid now store.length])).2 =
        store ++ (mkAlert p t' sid now store.length ::
          (createAlertsLoop now p sid rest (store ++ [mkAlert p t' sid now store.length])).1)
      rw [ih (store ++ [mkAlert p t' sid now store.length])]
      simp

lemma createAlertsLoop_mem (now : Nat) (p : StruggleProfileData) (sid : Nat) :
    ∀ (tutors : List Nat) (store : AlertStore) (a : TutorAlert),
      a ∈ (createAlertsLoop now p sid tutors store).1 →
      a.studentId = sid ∧ a.createdAt = now := by
  intro tutors
  induction tutors with
  | nil => intro store a ha; exact absurd ha (by simp [createAlertsLoop])
  | cons t' rest ih =>
    intro store a ha
    rw [createAlertsLoop] at ha
    split_ifs at ha with h
    · exact ih store a ha
    · rcases List.mem_cons.mp ha with rfl | ha'
      · exact ⟨rfl, rfl⟩
      · exact ih (store ++ [mkAlert p t' sid now store.length]) a ha'

lemma createAlertsLoop_blocked (now : Nat) (p : StruggleProfileData) (sid t : Nat) :
    ∀ (tutors : List Nat) (store : AlertStore),
      hasRecentAlert store t sid (now - cooldownMs) = true →
      countPairAlerts (createAlertsLoop now p sid tutors store).1 t sid = 0 := by
  intro tutors
  induction tutors with
  | nil => intro store _; rfl
  | cons t' rest ih =>
    intro store hblk
    unfold createAlertsLoop
    split_ifs with h
    · exact ih store hblk
    · have hne : t' ≠ t := by
        intro he
        apply h
        rw [he]
        exact hblk
      show countPairAlerts (mkAlert p t' sid now store.length ::
        (createAlertsLoop now p sid rest
          (store ++ [mkAlert p t' sid now store.length])).1) t sid = 0
      rw [countPairAlerts_cons]
      rw [if_neg (by intro hc; exact hne hc.1)]
      rw [Nat.zero_add]
      exact ih (store ++ [mkAlert p t' sid now store.length])
        (hasRecentAlert_append _ _ _ _ _ hblk)

lemma createAlertsLoop_pair_le_one (now : Nat) (p : StruggleProfileData) (sid t : Nat) :
    ∀ (tutors : List Nat) (store : AlertStore),
      countPairAlerts (createAlertsLoop now p sid tutors store).1 t sid ≤ 1 := by
  intro tutors
  induction tutors with
  | nil => intro store; exact Nat.zero_le 1
  | cons t' rest ih =>
    intro store
    unfold createAlertsLoop
    split_ifs with h
    · exact ih store
    · show countPairAlerts (mkAlert p t' sid now store.length ::
        (createAlertsLoop now p sid rest
          (store ++ [mkAlert p t' sid now store.length])).1) t sid ≤ 1
      rw [countPairAlerts_cons]
      by_cases hp : (mkAlert p t' sid now store.length).tutorId = t ∧
          (mkAlert p t' sid now store.length).studentId = sid
      · rw [if_pos hp]
        have hblk : hasRecentAlert (store ++ [mkAlert p t' sid now store.length]) t sid
            (now - cooldownMs) = true := by
          refine hasRecentAlert_of_mem _ (mkAlert p t' sid now store.length) _ _ _
            (List.mem_append_right _ (List.mem_singleton.mpr rfl)) hp.1 hp.2 ?_
          exact Nat.sub_le now cooldownMs
        rw [createAlertsLoop_blocked now p sid t rest _ hblk]
      · rw [if_neg hp, Nat.zero_add]
        exact ih (store ++ [mkAlert p t' sid now store.length])

lemma createAlertsIfNeeded_store (sid : Nat) (profile : Option StruggleProfileData)
    (network : Option (List Nat)) (now : Nat) (store : AlertStore) :
    (createAlertsIfNeeded sid profile network now store).2 =
      store ++ (createAlertsIfNeeded sid profile network now store).1 := by
  rw [createAlertsIfNeeded.eq_def]
  cases profile with
  | none => simp
  | some p =>
    dsimp only
    split_ifs with h
    · simp
    · cases network with
      | none => simp
      | some tutorIds =>
        dsimp only
        split_ifs with h2
        · simp
        · exact createAlertsLoop_store now p sid tutorIds store

lemma createAlertsIfNeeded_mem (sid : Nat) (profile : Option StruggleProfileData)
    (network : Option (List Nat)) (now : Nat) (store : AlertStore) (a : TutorAlert)
    (ha : a ∈ (createAlertsIfNeeded sid profile network now store).1) :
    a.studentId = sid ∧ a.createdAt = now := by
  rw [createAlertsIfNeeded.eq_def] at ha
  cases profile with
  | none => exact absurd ha (by simp)
  | some p =>
    dsimp only at ha
    split_ifs at ha with h
    · exact absurd ha (by simp)
    · cases network with
      | none => exact absurd ha (by simp)
      | some tutorIds =>
        dsimp only at ha
        split_ifs at ha with h2
        · exact absurd ha (by simp)
        · exact createAlertsLoop_mem now p sid tutorIds store a ha

lemma createAlertsIfNeeded_blocked (sid t : Nat) (profile : Option StruggleProfileData)
    (network : Option (List Nat)) (now : Nat) (store : AlertStore)
    (hblk : hasRecentAlert store t sid (now - cooldownMs) = true) :
    countPairAlerts (createAlertsIfNeeded sid profile network now store).1 t sid = 0 := by
  rw [createAlertsIfNeeded.eq_def]
  cases profile with
  | none => rfl
  | some p =>
    dsimp only
    split_ifs with h
    · rfl
    · cases network with
      | none => rfl
      | some tutorIds =>
        dsimp only
        split_ifs with h2
        · rfl
        · exact createAlertsLoop_blocked now p sid t tutorIds store hblk

lemma createAlertsIfNeeded_pair_le_one (sid t : Nat) (profile : Option StruggleProfileData)
    (network : Option (List Nat)) (now : Nat) (store : AlertStore) :
    countPairAlerts (createAlertsIfNeeded sid profile network now store).1 t sid ≤ 1 := by
  rw [createAlertsIfNeeded.eq_def]
  cases profile with
  | none => exact Nat.zero_le 1
  | some p =>
    dsimp only
    split_ifs with h
    · exact Nat.zero_le 1
    · cases network with
      | none => exact Nat.zero_le 1
      | some tutorIds =>
        dsimp only
        split_ifs with h2
        · exact Nat.zero_le 1
        · exact createAlertsLoop_pair_le_one now p sid t tutorIds store

/-- C1: two invocations of createAlertsIfNeeded for the same student within
the 24-hour cooldown window create at most one alert in total per
(tutor, student) pair, and whenever the first invocation created an alert
for the pair the second invocation creates none for it. -/
theorem C1_alert_cooldown (sid : Nat) (prof1 prof2 : Option StruggleProfileData)
    (net1 net2 : Option (List Nat)) (now1 now2 : Nat) (s0 : AlertStore) (t : Nat)
    (hwin : now2 ≤ now1 + cooldownMs) :
    countPairAlerts ((createAlertsIfNeeded sid prof1 net1 now1 s0).1 ++
        (createAlertsIfNeeded sid prof2 net2 now2
          (createAlertsIfNeeded sid prof1 net1 now1 s0).2).1) t sid ≤ 1 ∧
    (countPairAlerts (createAlertsIfNeeded sid prof1 net1 now1 s0).1 t sid ≠ 0 →
      countPairAlerts (createAlertsIfNeeded sid prof2 net2 now2
        (createAlertsIfNeeded sid prof1 net1 now1 s0).2).1 t sid = 0) := by
  have hskip : countPairAlerts (createAlertsIfNeeded sid prof1 net1 now1 s0).1 t sid ≠ 0 →
      countPairAlerts (createAlertsIfNeeded sid prof2 net2 now2
        (createAlertsIfNeeded sid prof1 net1 now1 s0).2).1 t sid = 0 := by
    intro hpos
    obtain ⟨a, ha, hat, has⟩ := countPairAlerts_pos _ t sid hpos
    obtain ⟨hstud, hcreated⟩ := createAlertsIfNeeded_mem sid prof1 net1 now1 s0 a ha
    have hin : a ∈ (createAlertsIfNeeded sid prof1 net1 now1 s0).2 := by
      rw [createAlertsIfNeeded_store]
      exact List.mem_append_right _ ha
    have hrec : hasRecentAlert (createAlertsIfNeeded sid prof1 net1 now1 s0).2 t sid
        (now2 - cooldownMs) = true := by
      refine hasRecentAlert_of_mem _ a _ _ _ hin hat has ?_
      rw [hcreated]
      exact Nat.sub_le_iff_le_add.mpr hwin
    exact createAlertsIfNeeded_blocked sid t prof2 net2 now2 _ hrec
  refine ⟨?_, hskip⟩
  rw [countPairAlerts_append]
  by_cases hz : countPairAlerts (createAlertsIfNeeded sid prof1 net1 now1 s0).1 t sid = 0
  · rw [hz, Nat.zero_add]
    exact createAlertsIfNeeded_pair_le_one sid t prof2 net2 now2 _
  · rw [hskip hz, Nat.add_zero]
    exact createAlertsIfNeeded_pair_le_one sid t prof1 net1 now1 s0

/-- C1 witness: two dispatches 1 second apart for the scenario profile
yield at most one alert for the pair (11, 5). -/
theorem C1_alert_cooldown_witness :
    countPairAlerts ((createAlertsIfNeeded 5 (some scenarioProfile) (some [11]) 1000 []).1 ++
        (createAlertsIfNeeded 5 (some scenarioProfile) (some [11]) 2000
          (createAlertsIfNeeded 5 (some scenarioProfile) (some [11]) 1000 []).2).1) 11 5 ≤ 1 :=
  (C1_alert_cooldown 5 (some scenarioProfile) (some scenarioProfile) (some [11]) (some [11])
    1000 2000 [] 11 (by norm_num [cooldownMs])).1

/-- C4: createAlertsIfNeeded proceeds to create alerts exactly when
(supportLevel = HIGH and trend = UP) or score ≥ 9: when the gate fails the
result is the empty list with the store untouched; when the gate holds (by
either disjunct) and the care network is non-empty, the call reaches the
per-tutor creation loop. A HIGH-and-UP profile with score 7.5 (< 9) and no
prior alert in the cooldown window creates an alert with urgency SOFT, and
the scenario profile with score 9.2, stable trend and medium support still
creates an alert, with urgency URGENT. -/
theorem C4_eligibility_gate :
    (∀ (sid : Nat) (p : StruggleProfileData) (network : Option (List Nat)) (now : Nat)
        (store : AlertStore),
      ¬ ((p.supportLevel = "HIGH" ∧ p.trend = "UP") ∨ 9 ≤ p.struggleScore) →
      createAlertsIfNeeded sid (some p) network now store = ([], store)) ∧
    (∀ (sid : Nat) (p : StruggleProfileData) (tutorIds : List Nat) (now : Nat)
        (store : AlertStore),
      ((p.supportLevel = "HIGH" ∧ p.trend = "UP") ∨ 9 ≤ p.struggleScore) →
      tutorIds ≠ [] →
      createAlertsIfNeeded sid (some p) (some tutorIds) now store =
        createAlertsLoop now p sid tutorIds store) ∧
    (∀ (sid tutorId now : Nat) (store : AlertStore),
      hasRecentAlert store tutorId sid (now - cooldownMs) = false →
      createAlertsIfNeeded sid (some sampleRisingHighProfile) (some [tutorId]) now store =
        ([mkAlert sampleRisingHighProfile tutorId sid now store.length],
         store ++ [mkAlert sampleRisingHighProfile tutorId sid now store.length]) ∧
      (mkAlert sampleRisingHighProfile tutorId sid now store.length).urgency = "SOFT") ∧
    (∀ (sid tutorId now : Nat) (store : AlertStore),
      hasRecentAlert store tutorId sid (now - cooldownMs) = false →
      createAlertsIfNeeded sid (some scenarioProfile) (some [tutorId]) now store =
        ([mkAlert scenarioProfile tutorId sid now store.length],
         store ++ [mkAlert scenarioProfile tutorId sid now store.length]) ∧
      (mkAlert scenarioProfile tutorId sid now store.length).urgency = "URGENT") := by
  refine ⟨?_, ?_, ?_, ?_⟩
  · intro sid p network now store h
    rw [createAlertsIfNeeded.eq_def]
    dsimp only
    rw [if_pos ⟨fun hab => h (Or.inl hab), not_le.mp (fun hge => h (Or.inr hge))⟩]
  · intro sid p tutorIds now store hgate hne
    rw [createAlertsIfNeeded.eq_def]
    dsimp only
    rw [if_neg ?_]
    · rw [if_neg (fun h0 => hne (List.length_eq_zero.mp h0))]
    · rintro ⟨hn, hl⟩
      rcases hgate with hab | hge
      · exact hn hab
      · exact absurd hge (not_le.mpr hl)
  · intro sid tutorId now store hno
    constructor
    · rw [createAlertsIfNeeded.eq_def]
      dsimp only
      rw [if_neg (by norm_num [sampleRisingHighProfile])]
      rw [if_neg (by simp)]
      unfold createAlertsLoop
      rw [if_neg (by simp [hno])]
      rfl
    · show (if (9:ℚ) ≤ sampleRisingHighProfile.struggleScore then "URGENT" else "SOFT") =
        "SOFT"
      rw [if_neg (by norm_num [sampleRisingHighProfile])]
  · intro sid tutorId now store hno
    constructor
    · rw [createAlertsIfNeeded.eq_def]
      dsimp only
      rw [if_neg (by norm_num [scenarioProfile])]
      rw [if_neg (by simp)]
      unfold createAlertsLoop
      rw [if_neg (by simp [hno])]
      rfl
    · show (if (9:ℚ) ≤ scenarioProfile.struggleScore then "URGENT" else "SOFT") = "URGENT"
      rw [if_pos (by norm_num [scenarioProfile])]

/-- C4 witness: the gate instantiated at a medium profile (empty result), at
the HIGH-and-UP score-7.5 profile (the call proceeds to the loop and creates
one SOFT alert), and at the critical-score scenario (one URGENT alert). -/
theorem C4_eligibility_gate_witness :
    createAlertsIfNeeded 6 (some sampleMediumProfile) none 0 [] = ([], []) ∧
    createAlertsIfNeeded 6 (some sampleRisingHighProfile) (some [12]) 0 [] =
      createAlertsLoop 0 sampleRisingHighProfile 6 [12] [] ∧
    createAlertsIfNeeded 7 (some sampleRisingHighProfile) (some [12]) 1000 [] =
      ([mkAlert sampleRisingHighProfile 12 7 1000 0],
       [mkAlert sampleRisingHighProfile 12 7 1000 0]) ∧
    (mkAlert sampleRisingHighProfile 12 7 1000 0).urgency = "SOFT" ∧
    createAlertsIfNeeded 5 (some scenarioProfile) (some [11]) 1000 [] =
      ([mkAlert scenarioProfile 11 5 1000 0], [mkAlert scenarioProfile 11 5 1000 0]) ∧
    (mkAlert scenarioProfile 11 5 1000 0).urgency = "URGENT" := by
  refine ⟨?_, ?_, ?_, ?_, ?_, ?_⟩
  · exact C4_eligibility_gate.1 6 sampleMediumProfile none 0 [] (by decide)
  · exact C4_eligibility_gate.2.1 6 sampleRisingHighProfile [12] 0 []
      (Or.inl ⟨rfl, rfl⟩) (by decide)
  · exact (C4_eligibility_gate.2.2.1 7 12 1000 [] (by decide)).1
  · exact (C4_eligibility_gate.2.2.1 7 12 1000 [] (by decide)).2
  · exact (C4_eligibility_gate.2.2.2 5 11 1000 [] (by decide)).1
  · exact (C4_eligibility_gate.2.2.2 5 11 1000 [] (by decide)).2


end StrugglePipeline
